import Mathlib

set_option maxRecDepth 8000
set_option maxHeartbeats 4000000

/-!
Verification of the AMP tutorial notebook
`docs/guides/01_paddle2.0_introduction/basic_concept/amp_cn.ipynb`.

The notebook is straight-line orchestration code: a pair of wall-clock
timing helpers built on a module-level variable, a three-layer
feed-forward network `SimpleNet`, and four training loops (baseline,
AMP-O1, AMP-O2, and a gradient-accumulation AMP variant) that sequence
calls into the external framework (`paddle.amp.auto_cast`,
`paddle.amp.GradScaler`, `paddle.amp.decorate`).

We embed the notebook shallowly:
* the timing helpers become explicit state passing over a module state
  holding `start_time`, with wall-clock readings supplied as arguments;
* `SimpleNet.forward` becomes a function over abstract layer functions,
  and separately a shape-level semantics over `nn.Linear` layer sizes;
* each training loop becomes the finite trace of framework calls it
  performs, with the constructor arguments it passes recorded in the
  trace, faithful to the cell's statements;
* the authored statements themselves are also transcribed into a small
  Python statement syntax, to settle the claim that no authored code
  contains `try`/`except` or `raise`.
-/

/-! ## Timing helpers (notebook cell: `start_timer` / `end_timer_and_print`)

Wall-clock readings (`time.time()` results) are modelled as rationals
passed in explicitly.  The module state carries the single module-level
variable the helpers touch, `start_time` (initialised to `None`), plus an
abstract remainder `rest` standing for every other module-level binding,
so that frame properties are expressible. -/

/-- The module-level state visible to the timing helpers: the variable
`start_time : Option ℚ` (Python `None` ↦ `none`) and an abstract rest of
the module namespace. -/
structure TimerModule (α : Type) where
  start_time : Option ℚ
  rest : α
  deriving DecidableEq, Repr

/-- Module initialisation: the notebook sets `start_time = None` at module
level; `r` is the rest of the module namespace. -/
def initTimerModule (r : α) : TimerModule α := ⟨none, r⟩

/-- `start_timer()`: `global start_time; start_time = time.time()`.
The current wall-clock value is the argument `now`. -/
def start_timer (now : ℚ) (st : TimerModule α) : TimerModule α :=
  { st with start_time := some now }

/-- One line of stdout: either plain text from `print`, or a `print` of a
format string applied to a numeric value (`"...".format(val)`). -/
inductive OutLine where
  | text (s : String)
  | formatted (fmt : String) (val : ℚ)
  deriving DecidableEq, Repr

/-- Python `TypeError`, raised e.g. by `float - NoneType`. -/
inductive PyError where
  | typeError
  deriving DecidableEq, Repr

/-- The format string of the elapsed-time line (braces escaped). -/
def elapsedFmt : String := "共计耗时 = \x7b:.3f\x7d sec"

/-- `end_timer_and_print(msg)`:
`end_time = time.time(); print("\n" + msg);
print("共计耗时 = {:.3f} sec".format(end_time - start_time))`.
Returns the (unchanged) module state, the lines printed, and the error if
one is raised.  When `start_time` is still `None`, the first `print` has
already executed and the subtraction `end_time - start_time` raises
`TypeError`, so no elapsed-time line is printed. -/
def end_timer_and_print (now : ℚ) (msg : String) (st : TimerModule α) :
    TimerModule α × List OutLine × Option PyError :=
  let end_time := now
  match st.start_time with
  | some s =>
      (st, [.text ("\n" ++ msg), .formatted elapsedFmt (end_time - s)], none)
  | none =>
      (st, [.text ("\n" ++ msg)], some .typeError)

/-! ## `SimpleNet` (functional view)

`forward` only threads `x` through the five layer attributes in order;
the layers themselves are framework objects, so they are abstract
functions here. -/

/-- The layer attributes a `SimpleNet` instance holds, as abstract
functions on tensors of type `α`. -/
structure SimpleNet (α : Type) where
  linear1 : α → α
  relu1 : α → α
  linear2 : α → α
  relu2 : α → α
  linear3 : α → α

/-- `SimpleNet.forward`, transcribed statement by statement:
`x = self.linear1(x); x = self.relu1(x); x = self.linear2(x);
x = self.relu2(x); x = self.linear3(x); return x`. -/
def SimpleNet.forward (net : SimpleNet α) (x : α) : α :=
  let x := net.linear1 x
  let x := net.relu1 x
  let x := net.linear2 x
  let x := net.relu2 x
  let x := net.linear3 x
  x

/-! ## `SimpleNet` (shape view)

`nn.Linear(in_features, out_features)` maps a batch of shape
`(b, in_features)` to `(b, out_features)` and rejects any other input
width; `nn.ReLU` preserves shape.  This suffices to settle the
shape-correctness claim about `SimpleNet.__init__`. -/

/-- An `nn.Linear` layer, by its constructor arguments. -/
structure Linear where
  in_features : Nat
  out_features : Nat
  deriving DecidableEq, Repr

/-- Shape semantics of applying a `Linear` layer to a 2-d tensor of shape
`(batch, width)`: defined only when `width = in_features`. -/
def Linear.applyShape (l : Linear) (s : Nat × Nat) : Option (Nat × Nat) :=
  if s.2 = l.in_features then some (s.1, l.out_features) else none

/-- The three `Linear` layers a `SimpleNet` holds (the `ReLU` layers are
shape-neutral and carry no parameters). -/
structure SimpleNetLayers where
  linear1 : Linear
  linear2 : Linear
  linear3 : Linear
  deriving DecidableEq, Repr

/-- `SimpleNet.__init__(input_size, output_size)`, transcribed: all three
layers are constructed as `nn.Linear(input_size, output_size)`. -/
def SimpleNet.init (input_size output_size : Nat) : SimpleNetLayers :=
  { linear1 := ⟨input_size, output_size⟩
    linear2 := ⟨input_size, output_size⟩
    linear3 := ⟨input_size, output_size⟩ }

/-- Shape semantics of `SimpleNet.forward`: thread the shape through
`linear1`, `relu1`, `linear2`, `relu2`, `linear3` (ReLU preserves the
shape, so only the `Linear` applications constrain it). -/
def forwardShape (net : SimpleNetLayers) (s : Nat × Nat) : Option (Nat × Nat) :=
  (net.linear1.applyShape s).bind fun s1 =>
  (net.linear2.applyShape s1).bind fun s2 =>
  net.linear3.applyShape s2

/-! ## Script constants (notebook cell 9 and the grad-accumulation cell) -/

def epochs : Nat := 5
def input_size : Nat := 4096
def output_size : Nat := 4096
def batch_size : Nat := 512
def nums_batch : Nat := 50
def accumulate_batchs_num : Nat := 10

/-- `train_data = [paddle.randn((batch_size, input_size)) for _ in
range(nums_batch)]`: the tensors are random, so only their number matters;
we keep their indices. -/
def train_data : List Nat := List.range nums_batch

/-- `labels = [paddle.randn((batch_size, output_size)) for _ in
range(nums_batch)]`. -/
def labels : List Nat := List.range nums_batch

/-! ## Training loops as traces of framework calls -/

/-- Arguments of `paddle.amp.auto_cast`; the framework defaults are
`enable=True, custom_white_list=None, custom_black_list=None, level=O1`. -/
structure AutoCastArgs where
  enable : Bool := true
  custom_white_list : Option (List String) := none
  custom_black_list : Option (List String) := none
  level : String := "O1"
  deriving DecidableEq, Repr

/-- Arguments of `paddle.amp.decorate` as passed by the notebook. -/
structure DecorateArgs where
  level : String
  master_weight : Option Bool
  save_dtype : Option String
  deriving DecidableEq, Repr

/-- One observable step of a training loop, indexed (where meaningful) by
the 0-based batch index `i` of the enumerate over `zip(train_data, labels)`. -/
inductive Event where
  | autoCastEnter (args : AutoCastArgs)
  | forward (i : Nat)
  | lossCompute (i : Nat)
  | autoCastExit
  | lossBackward (i : Nat)
  | scale (i : Nat)
  | scaledBackward (i : Nat)
  | optStep (i : Nat)
  | minimize (i : Nat)
  | clearGrad (i : Nat)
  | printLoss
  | printTime (msg : String)
  deriving DecidableEq, Repr

/-- The shared loop skeleton of all four training cells:
`for epoch in range(epochs): datas = zip(train_data, labels);
for i, (data, label) in enumerate(datas): <body>`, followed by
`print(loss)` and `end_timer_and_print(msg)`. -/
def trainLoop (epochs : Nat) (data lbls : List Nat)
    (iterBody : Nat → List Event) (msg : String) : List Event :=
  ((List.range epochs).flatMap fun _ =>
    (data.zip lbls).enum.flatMap fun p => iterBody p.1)
  ++ [.printLoss, .printTime msg]

/-- Baseline (full-precision) iteration body: `output = model(data);
loss = mse(output, label); loss.backward(); optimizer.step();
optimizer.clear_grad()`. -/
def baselineIterBody (i : Nat) : List Event :=
  [.forward i, .lossCompute i, .lossBackward i, .optStep i, .clearGrad i]

/-- AMP-O1 iteration body: `with paddle.amp.auto_cast(): output = ...;
loss = ...` then `scaled = scaler.scale(loss); scaled.backward();
scaler.minimize(optimizer, scaled); optimizer.clear_grad()`. -/
def ampO1IterBody (i : Nat) : List Event :=
  [.autoCastEnter {}, .forward i, .lossCompute i, .autoCastExit,
   .scale i, .scaledBackward i, .minimize i, .clearGrad i]

/-- AMP-O2 iteration body: same as O1 except the `auto_cast` scope is
opened with `enable=True, custom_white_list=None, custom_black_list=None,
level=O2`. -/
def ampO2IterBody (i : Nat) : List Event :=
  [.autoCastEnter ⟨true, none, none, "O2"⟩, .forward i, .lossCompute i,
   .autoCastExit, .scale i, .scaledBackward i, .minimize i, .clearGrad i]

/-- Gradient-accumulation iteration body: the auto-cast scope and
`scaled = scaler.scale(loss); scaled.backward()` run every iteration;
`scaler.minimize(optimizer, scaled); optimizer.clear_grad()` run only
under `if (i + 1) % accumulate_batchs_num == 0`. -/
def gradAccumIterBody (accNum i : Nat) : List Event :=
  [.autoCastEnter {}, .forward i, .lossCompute i, .autoCastExit,
   .scale i, .scaledBackward i]
  ++ (if (i + 1) % accNum = 0 then [.minimize i, .clearGrad i] else [])

/-- Full trace of the baseline training cell. -/
def baselineTrace : List Event :=
  trainLoop epochs train_data labels baselineIterBody "默认耗时:"

/-- Full trace of the AMP-O1 training cell. -/
def ampO1Trace : List Event :=
  trainLoop epochs train_data labels ampO1IterBody "使用AMP-O1模式耗时:"

/-- Full trace of the AMP-O2 training cell. -/
def ampO2Trace : List Event :=
  trainLoop epochs train_data labels ampO2IterBody "使用AMP-O2模式耗时:"

/-- Full trace of the gradient-accumulation AMP training cell. -/
def gradAccumTrace : List Event :=
  trainLoop epochs train_data labels
    (gradAccumIterBody accumulate_batchs_num) "使用AMP模式耗时:"

/-- The trace of a single epoch of the gradient-accumulation loop. -/
def gradAccumEpoch : List Event :=
  (train_data.zip labels).enum.flatMap fun p =>
    gradAccumIterBody accumulate_batchs_num p.1

/-- Per-loop setup performed before the timed loop: whether a
`GradScaler` is constructed (and with which `init_loss_scaling`), and
whether `paddle.amp.decorate` is called (and with which arguments). -/
structure LoopSetup where
  scaler_init_loss_scaling : Option Nat
  decorate_args : Option DecorateArgs
  deriving DecidableEq, Repr

/-- Baseline cell setup: no scaler, no decorate. -/
def baselineSetup : LoopSetup := ⟨none, none⟩

/-- AMP-O1 cell setup: `scaler = paddle.amp.GradScaler(init_loss_scaling=1024)`,
no decorate. -/
def ampO1Setup : LoopSetup := ⟨some 1024, none⟩

/-- AMP-O2 cell setup: `scaler = paddle.amp.GradScaler(init_loss_scaling=1024)`
and `model, optimizer = paddle.amp.decorate(models=model,
optimizers=optimizer, level=O2, master_weight=None, save_dtype=None)`. -/
def ampO2Setup : LoopSetup := ⟨some 1024, some ⟨"O2", none, none⟩⟩

/-- Gradient-accumulation cell setup: `scaler =
paddle.amp.GradScaler(init_loss_scaling=1024)`, no decorate. -/
def gradAccumSetup : LoopSetup := ⟨some 1024, none⟩

/-! ## Spec-side checker for the gradient-accumulation update pattern

This definition follows the words of the claim (not the source): scanning
a trace, `pending` counts the scale-and-backward steps seen since the
last `clear_grad`; every `minimize` must find exactly `accNum` of them,
so each update is preceded by `accNum` consecutive scale-and-backward
steps with no intervening `clear_grad`. -/

/-- Spec-side pattern: each `minimize` in the trace is preceded by exactly
`accNum` scaled-backward steps since the last `clearGrad`. -/
def specUpdatePattern (accNum : Nat) : List Event → Nat → Bool
  | [], _ => true
  | Event.scaledBackward _ :: rest, pending =>
      specUpdatePattern accNum rest (pending + 1)
  | Event.minimize _ :: rest, pending =>
      (pending == accNum) && specUpdatePattern accNum rest pending
  | Event.clearGrad _ :: rest, _ =>
      specUpdatePattern accNum rest 0
  | _ :: rest, pending => specUpdatePattern accNum rest pending

/-! ## Authored statements as a small Python statement syntax

To settle the error-handling claim (no `try`/`except`, no `raise`
anywhere in authored code) we transcribe every authored definition and
loop of the notebook into a small statement syntax that distinguishes the
exception-related statement forms, and check structurally that none
occurs.  Expressions are kept as their source text. -/

/-- A fragment of Python statement syntax, rich enough to transcribe the
notebook: blocks are right-nested `seq` chains ended by `pass`. -/
inductive PyStmt where
  | pass
  | seq (s1 s2 : PyStmt)
  | assign (lhs rhs : String)
  | globalDecl (name : String)
  | exprStmt (e : String)
  | ret (e : String)
  | forLoop (var iter : String) (body : PyStmt)
  | withStmt (ctx : String) (body : PyStmt)
  | ifStmt (cond : String) (body : PyStmt)
  | tryExcept (body handler : PyStmt)
  | raiseStmt (e : String)
  deriving DecidableEq, Repr

/-- Build a block from a statement list. -/
def block (l : List PyStmt) : PyStmt := l.foldr PyStmt.seq PyStmt.pass

/-- Does a statement contain a try/except handler or an explicit raise,
at any nesting depth? -/
def hasTryOrRaise : PyStmt → Bool
  | PyStmt.seq a b => hasTryOrRaise a || hasTryOrRaise b
  | PyStmt.forLoop _ _ body => hasTryOrRaise body
  | PyStmt.withStmt _ body => hasTryOrRaise body
  | PyStmt.ifStmt _ body => hasTryOrRaise body
  | PyStmt.tryExcept _ _ => true
  | PyStmt.raiseStmt _ => true
  | _ => false

/-- Body of `start_timer`, transcribed. -/
def start_timer_src : PyStmt := block
  [.globalDecl "start_time",
   .assign "start_time" "time.time()"]

/-- Body of `end_timer_and_print`, transcribed. -/
def end_timer_and_print_src : PyStmt := block
  [.assign "end_time" "time.time()",
   .exprStmt "print(\x22\\n\x22 + msg)",
   .exprStmt "print(\x22共计耗时 = \x7b:.3f\x7d sec\x22.format(end_time - start_time))"]

/-- Body of `SimpleNet.__init__`, transcribed. -/
def simpleNet_init_src : PyStmt := block
  [.exprStmt "super(SimpleNet, self).__init__()",
   .assign "self.linear1" "nn.Linear(input_size, output_size)",
   .assign "self.relu1" "nn.ReLU()",
   .assign "self.linear2" "nn.Linear(input_size, output_size)",
   .assign "self.relu2" "nn.ReLU()",
   .assign "self.linear3" "nn.Linear(input_size, output_size)"]

/-- Body of `SimpleNet.forward`, transcribed. -/
def simpleNet_forward_src : PyStmt := block
  [.assign "x" "self.linear1(x)",
   .assign "x" "self.relu1(x)",
   .assign "x" "self.linear2(x)",
   .assign "x" "self.relu2(x)",
   .assign "x" "self.linear3(x)",
   .ret "x"]

/-- The baseline training cell, transcribed. -/
def baseline_loop_src : PyStmt := block
  [.assign "model" "SimpleNet(input_size, output_size)",
   .assign "optimizer" "paddle.optimizer.SGD(learning_rate=0.0001, parameters=model.parameters())",
   .exprStmt "start_timer()",
   .forLoop "epoch" "range(epochs)" (block
     [.assign "datas" "zip(train_data, labels)",
      .forLoop "i, (data, label)" "enumerate(datas)" (block
        [.assign "output" "model(data)",
         .assign "loss" "mse(output, label)",
         .exprStmt "loss.backward()",
         .exprStmt "optimizer.step()",
         .exprStmt "optimizer.clear_grad()"])]),
   .exprStmt "print(loss)",
   .exprStmt "end_timer_and_print(\x22默认耗时:\x22)"]

/-- The AMP-O1 training cell, transcribed. -/
def ampO1_loop_src : PyStmt := block
  [.assign "model" "SimpleNet(input_size, output_size)",
   .assign "optimizer" "paddle.optimizer.SGD(learning_rate=0.0001, parameters=model.parameters())",
   .assign "scaler" "paddle.amp.GradScaler(init_loss_scaling=1024)",
   .exprStmt "start_timer()",
   .forLoop "epoch" "range(epochs)" (block
     [.assign "datas" "zip(train_data, labels)",
      .forLoop "i, (data, label)" "enumerate(datas)" (block
        [.withStmt "paddle.amp.auto_cast()" (block
          [.assign "output" "model(data)",
           .assign "loss" "mse(output, label)"]),
         .assign "scaled" "scaler.scale(loss)",
         .exprStmt "scaled.backward()",
         .exprStmt "scaler.minimize(optimizer, scaled)",
         .exprStmt "optimizer.clear_grad()"])]),
   .exprStmt "print(loss)",
   .exprStmt "end_timer_and_print(\x22使用AMP-O1模式耗时:\x22)"]

/-- The AMP-O2 training cell, transcribed. -/
def ampO2_loop_src : PyStmt := block
  [.assign "model" "SimpleNet(input_size, output_size)",
   .assign "optimizer" "paddle.optimizer.SGD(learning_rate=0.0001, parameters=model.parameters())",
   .assign "scaler" "paddle.amp.GradScaler(init_loss_scaling=1024)",
   .assign "model, optimizer" "paddle.amp.decorate(models=model, optimizers=optimizer, level=\x27O2\x27, master_weight=None, save_dtype=None)",
   .exprStmt "start_timer()",
   .forLoop "epoch" "range(epochs)" (block
     [.assign "datas" "zip(train_data, labels)",
      .forLoop "i, (data, label)" "enumerate(datas)" (block
        [.withStmt "paddle.amp.auto_cast(enable=True, custom_white_list=None, custom_black_list=None, level=\x27O2\x27)" (block
          [.assign "output" "model(data)",
           .assign "loss" "mse(output, label)"]),
         .assign "scaled" "scaler.scale(loss)",
         .exprStmt "scaled.backward()",
         .exprStmt "scaler.minimize(optimizer, scaled)",
         .exprStmt "optimizer.clear_grad()"])]),
   .exprStmt "print(loss)",
   .exprStmt "end_timer_and_print(\x22使用AMP-O2模式耗时:\x22)"]

/-- The gradient-accumulation training cell, transcribed. -/
def gradAccum_loop_src : PyStmt := block
  [.assign "model" "SimpleNet(input_size, output_size)",
   .assign "optimizer" "paddle.optimizer.SGD(learning_rate=0.0001, parameters=model.parameters())",
   .assign "accumulate_batchs_num" "10",
   .assign "scaler" "paddle.amp.GradScaler(init_loss_scaling=1024)",
   .exprStmt "start_timer()",
   .forLoop "epoch" "range(epochs)" (block
     [.assign "datas" "zip(train_data, labels)",
      .forLoop "i, (data, label)" "enumerate(datas)" (block
        [.withStmt "paddle.amp.auto_cast()" (block
          [.assign "output" "model(data)",
           .assign "loss" "mse(output, label)"]),
         .assign "scaled" "scaler.scale(loss)",
         .exprStmt "scaled.backward()",
         .ifStmt "(i + 1) % accumulate_batchs_num == 0" (block
           [.exprStmt "scaler.minimize(optimizer, scaled)",
            .exprStmt "optimizer.clear_grad()"])])]),
   .exprStmt "print(loss)",
   .exprStmt "end_timer_and_print(\x22使用AMP模式耗时:\x22)"]

/-- Is the event a `scaler.minimize` call? -/
def isMinimize : Event → Bool
  | Event.minimize _ => true
  | _ => false

/-- Is the event an unscaled `loss.backward()` call? -/
def isLossBackward : Event → Bool
  | Event.lossBackward _ => true
  | _ => false

/-- Is the event one of the two prints after the loop (`print(loss)` or
the `end_timer_and_print` call)? -/
def isPrintEvent : Event → Bool
  | Event.printLoss => true
  | Event.printTime _ => true
  | _ => false

/-- C1: `SimpleNet.forward` is exactly the composition
`linear3 ∘ relu2 ∘ linear2 ∘ relu1 ∘ linear1`. -/
theorem simpleNet_forward_composition {α : Type} (net : SimpleNet α) (x : α) :
    net.forward x =
      net.linear3 (net.relu2 (net.linear2 (net.relu1 (net.linear1 x)))) :=
  rfl

/-- The enumerate pattern of the notebook loops: when the loop body only
uses the index of `enumerate(zip(data, lbls))`, iterating it equals
iterating over `range` of the zipped length. -/
theorem enum_flatMap_eq_range_flatMap {α β : Type} (l : List α)
    (f : Nat → List β) :
    l.enum.flatMap (fun p => f p.1) = (List.range l.length).flatMap f := by
  rw [← List.enum_map_fst l, List.flatMap_map]

/-- Every notebook training loop over `train_data`/`labels` is the
`epochs`-fold repetition of its body over batch indices
`0, ..., nums_batch - 1`, followed by the two prints. -/
theorem trainLoop_eq_range_flatMap (ep : Nat) (body : Nat → List Event)
    (msg : String) :
    trainLoop ep train_data labels body msg =
      ((List.range ep).flatMap fun _ => (List.range nums_batch).flatMap body)
        ++ [Event.printLoss, Event.printTime msg] := by
  simp only [trainLoop, enum_flatMap_eq_range_flatMap, List.length_zip,
    train_data, labels, List.length_range, Nat.min_self]

/-- C2: in the gradient-accumulation AMP loop, `scaler.minimize` and
`optimizer.clear_grad` execute exactly on the iterations whose 1-based
batch index `i + 1` is a multiple of `accumulate_batchs_num = 10` and on
no other iteration; with `nums_batch = 50` each epoch performs exactly 5
parameter updates, each preceded by 10 consecutive scale-and-backward
steps with no intervening `clear_grad` (the full trace is `epochs`
repetitions of the epoch trace, followed by the prints). -/
theorem gradAccum_update_schedule :
    gradAccumTrace =
      ((List.range epochs).flatMap fun _ => gradAccumEpoch)
        ++ [Event.printLoss, Event.printTime "使用AMP模式耗时:"] ∧
    (∀ i < nums_batch,
      ((Event.minimize i ∈ gradAccumEpoch) ↔
        (i + 1) % accumulate_batchs_num = 0) ∧
      ((Event.clearGrad i ∈ gradAccumEpoch) ↔
        (i + 1) % accumulate_batchs_num = 0)) ∧
    gradAccumEpoch.countP isMinimize = 5 ∧
    specUpdatePattern accumulate_batchs_num gradAccumEpoch 0 = true := by
  refine ⟨rfl, by decide, by decide, by decide⟩

/-- Witness for C2 at the concrete batch index 9 (1-based index 10). -/
theorem gradAccum_update_schedule_witness :
    (9 : Nat) < nums_batch ∧
    ((Event.minimize 9 ∈ gradAccumEpoch) ↔
      (9 + 1) % accumulate_batchs_num = 0) ∧
    ((Event.clearGrad 9 ∈ gradAccumEpoch) ↔
      (9 + 1) % accumulate_batchs_num = 0) :=
  ⟨by decide, gradAccum_update_schedule.2.1 9 (by decide)⟩

/-- C3 counterexample: the claim says all three AMP loops perform the
optimizer step via `scaler.minimize` on every batch, but in the
gradient-accumulation loop the first batch (i = 0, 1-based index 1, not a
multiple of 10) triggers no `minimize` at all. -/
theorem ampLoops_counterexample_minimize_batch0 :
    Event.minimize 0 ∉ gradAccumEpoch := by decide

/-- C3 (amended): each AMP loop constructs its `GradScaler` with
`init_loss_scaling = 1024`, computes output and loss inside an
`auto_cast` scope, and on every batch calls `scaler.scale(loss)` followed
by `scaled.backward()`; the O1 and O2 loops call `scaler.minimize` on
every batch, while the gradient-accumulation loop calls it exactly when
`(i + 1) % accumulate_batchs_num = 0`; the loss is never back-propagated
unscaled in any AMP loop. -/
theorem ampLoops_scaling_discipline :
    ampO1Setup.scaler_init_loss_scaling = some 1024 ∧
    ampO2Setup.scaler_init_loss_scaling = some 1024 ∧
    gradAccumSetup.scaler_init_loss_scaling = some 1024 ∧
    (∀ i < nums_batch,
      ampO1IterBody i =
        [Event.autoCastEnter {}, Event.forward i, Event.lossCompute i,
         Event.autoCastExit, Event.scale i, Event.scaledBackward i,
         Event.minimize i, Event.clearGrad i] ∧
      ampO2IterBody i =
        [Event.autoCastEnter ⟨true, none, none, "O2"⟩, Event.forward i,
         Event.lossCompute i, Event.autoCastExit, Event.scale i,
         Event.scaledBackward i, Event.minimize i, Event.clearGrad i] ∧
      Event.scale i ∈ gradAccumEpoch ∧
      Event.scaledBackward i ∈ gradAccumEpoch ∧
      ((Event.minimize i ∈ gradAccumEpoch) ↔
        (i + 1) % accumulate_batchs_num = 0)) ∧
    ampO1Trace.countP isLossBackward = 0 ∧
    ampO2Trace.countP isLossBackward = 0 ∧
    gradAccumTrace.countP isLossBackward = 0 := by
  refine ⟨rfl, rfl, rfl, by decide, by decide, by decide, by decide⟩

/-- Witness for the amended C3 at the concrete batch index 0. -/
theorem ampLoops_scaling_discipline_witness :
    (0 : Nat) < nums_batch ∧
    ampO1IterBody 0 =
      [Event.autoCastEnter {}, Event.forward 0, Event.lossCompute 0,
       Event.autoCastExit, Event.scale 0, Event.scaledBackward 0,
       Event.minimize 0, Event.clearGrad 0] :=
  ⟨by decide, (ampLoops_scaling_discipline.2.2.2.1 0 (by decide)).1⟩

/-- C4: only the O2 cell calls `paddle.amp.decorate`, with
`level = O2, master_weight = None, save_dtype = None`; every `auto_cast`
scope the O2 loop opens receives `enable=True, custom_white_list=None,
custom_black_list=None, level=O2`; the baseline, O1 and
gradient-accumulation cells never call `decorate`. -/
theorem decorate_only_in_O2 :
    ampO2Setup.decorate_args =
      some { level := "O2", master_weight := none, save_dtype := none } ∧
    (∀ i < nums_batch,
      (ampO2IterBody i).head? =
        some (Event.autoCastEnter
          { enable := true, custom_white_list := none,
            custom_black_list := none, level := "O2" })) ∧
    (ampO2Trace.countP fun e =>
      match e with
      | Event.autoCastEnter args =>
          args != { enable := true, custom_white_list := none,
                    custom_black_list := none, level := "O2" }
      | _ => false) = 0 ∧
    baselineSetup.decorate_args = none ∧
    ampO1Setup.decorate_args = none ∧
    gradAccumSetup.decorate_args = none := by
  refine ⟨rfl, by decide, by decide, rfl, rfl, rfl⟩

/-- Witness for C4 at the concrete batch index 0. -/
theorem decorate_only_in_O2_witness :
    (0 : Nat) < nums_batch ∧
    (ampO2IterBody 0).head? =
      some (Event.autoCastEnter
        { enable := true, custom_white_list := none,
          custom_black_list := none, level := "O2" }) :=
  ⟨by decide, decorate_only_in_O2.2.1 0 (by decide)⟩

/-- C5: `start_timer` stores the current wall-clock reading in
`start_time`, and when `start_time` holds a value `s`,
`end_timer_and_print msg` reads the current wall-clock value, prints the
blank line followed by `msg`, then prints the elapsed-time line formatted
by the three-decimal format string applied to `end_time - s`, raising no
error and leaving the state unchanged. -/
theorem timer_measures_elapsed {α : Type} (nowS nowE : ℚ) (msg : String)
    (st : TimerModule α) (s : ℚ) (h : st.start_time = some s) :
    (start_timer nowS st).start_time = some nowS ∧
    end_timer_and_print nowE msg st =
      (st, [OutLine.text ("\n" ++ msg),
            OutLine.formatted elapsedFmt (nowE - s)], none) := by
  obtain ⟨t, r⟩ := st
  have h2 : t = some s := h
  subst h2
  exact ⟨rfl, rfl⟩

/-- Witness for C5 on a concrete state and clock readings. -/
theorem timer_measures_elapsed_witness :
    (start_timer 7 (start_timer 2 (initTimerModule (0 : Nat)))).start_time =
      some 7 ∧
    end_timer_and_print 5 "t" (start_timer 2 (initTimerModule (0 : Nat))) =
      (start_timer 2 (initTimerModule (0 : Nat)),
       [OutLine.text ("\n" ++ "t"), OutLine.formatted elapsedFmt (5 - 2)],
       none) :=
  timer_measures_elapsed 7 5 "t" (start_timer 2 (initTimerModule (0 : Nat)))
    2 rfl

/-- C6: the baseline loop performs, for each of the `epochs = 5` epochs
and each of the `nums_batch = 50` data/label pairs in list order, exactly
the sequence forward, loss, backward, step, clear_grad, and only after
all 250 iterations prints the final loss and the elapsed-time message. -/
theorem baseline_schedule_and_prints :
    baselineTrace =
      (((List.range epochs).flatMap fun _ =>
        (List.range nums_batch).flatMap fun i =>
          [Event.forward i, Event.lossCompute i, Event.lossBackward i,
           Event.optStep i, Event.clearGrad i])
        ++ [Event.printLoss, Event.printTime "默认耗时:"]) ∧
    ((List.range epochs).flatMap fun _ =>
        (List.range nums_batch).flatMap fun i => baselineIterBody i).length =
      epochs * nums_batch * 5 ∧
    ((List.range epochs).flatMap fun _ =>
        (List.range nums_batch).flatMap fun i => baselineIterBody i).countP
      isPrintEvent = 0 := by
  refine ⟨?_, by decide, by decide⟩
  simp only [baselineTrace]
  rw [trainLoop_eq_range_flatMap]
  rfl

/-- C7: `start_timer` writes `start_time` and nothing else;
`end_timer_and_print` modifies no module state at all, so two consecutive
`end_timer_and_print` calls with no intervening `start_timer` measure
elapsed time from the same stored start point `s`. -/
theorem timer_frame_properties {α : Type} (now now1 now2 : ℚ)
    (msg1 msg2 : String) (st : TimerModule α) (s : ℚ)
    (h : st.start_time = some s) :
    start_timer now st = { start_time := some now, rest := st.rest } ∧
    (end_timer_and_print now1 msg1 st).1 = st ∧
    (end_timer_and_print now1 msg1 st).2.1 =
      [OutLine.text ("\n" ++ msg1), OutLine.formatted elapsedFmt (now1 - s)] ∧
    (end_timer_and_print now2 msg2
        (end_timer_and_print now1 msg1 st).1).2.1 =
      [OutLine.text ("\n" ++ msg2), OutLine.formatted elapsedFmt (now2 - s)] := by
  obtain ⟨t, r⟩ := st
  have h2 : t = some s := h
  subst h2
  exact ⟨rfl, rfl, rfl, rfl⟩

/-- Witness for C7 on a concrete state and clock readings. -/
theorem timer_frame_properties_witness :
    start_timer 1 (start_timer 3 (initTimerModule (0 : Nat))) =
      { start_time := some 1,
        rest := (start_timer 3 (initTimerModule (0 : Nat))).rest } ∧
    (end_timer_and_print 4 "a" (start_timer 3 (initTimerModule (0 : Nat)))).1 =
      start_timer 3 (initTimerModule (0 : Nat)) ∧
    (end_timer_and_print 4 "a"
        (start_timer 3 (initTimerModule (0 : Nat)))).2.1 =
      [OutLine.text ("\n" ++ "a"), OutLine.formatted elapsedFmt (4 - 3)] ∧
    (end_timer_and_print 9 "b"
        (end_timer_and_print 4 "a"
          (start_timer 3 (initTimerModule (0 : Nat)))).1).2.1 =
      [OutLine.text ("\n" ++ "b"), OutLine.formatted elapsedFmt (9 - 3)] :=
  timer_frame_properties 1 4 9 "a" "b"
    (start_timer 3 (initTimerModule (0 : Nat))) 3 rfl

/-- C8: `start_time` is initialised to `None`; calling
`end_timer_and_print` while it is still `None` prints the blank line and
the message but then raises `TypeError` on `end_time - start_time`,
printing no elapsed-time line and leaving the state unchanged. -/
theorem end_timer_without_start {α : Type} (now : ℚ) (msg : String)
    (r0 : α) (st : TimerModule α) (h : st.start_time = none) :
    (initTimerModule r0).start_time = none ∧
    end_timer_and_print now msg st =
      (st, [OutLine.text ("\n" ++ msg)], some PyError.typeError) := by
  obtain ⟨t, r⟩ := st
  have h2 : t = none := h
  subst h2
  exact ⟨rfl, rfl⟩

/-- Witness for C8 on the freshly initialised module state. -/
theorem end_timer_without_start_witness :
    (initTimerModule (0 : Nat)).start_time = none ∧
    end_timer_and_print 1 "x" (initTimerModule (0 : Nat)) =
      (initTimerModule (0 : Nat), [OutLine.text ("\n" ++ "x")],
       some PyError.typeError) :=
  end_timer_without_start 1 "x" (0 : Nat) (initTimerModule (0 : Nat)) rfl

/-- C9: all three `Linear` layers are constructed with in-features
`input_size` and out-features `output_size`, so `forward` on a batch of
shape `(b, input_size)` is shape-correct exactly when
`input_size = output_size`; the script satisfies this with both equal to
4096, so the shape check succeeds on `(batch_size, input_size)`. -/
theorem simpleNet_shape_requires_square :
    (∀ isz osz b : Nat,
      (forwardShape (SimpleNet.init isz osz) (b, isz)).isSome ↔ isz = osz) ∧
    input_size = output_size ∧
    forwardShape (SimpleNet.init input_size output_size)
        (batch_size, input_size) = some (batch_size, output_size) := by
  refine ⟨?_, rfl, by decide⟩
  intro isz osz b
  by_cases h : osz = isz
  · subst h
    simp [forwardShape, SimpleNet.init, Linear.applyShape]
  · simp [forwardShape, SimpleNet.init, Linear.applyShape, h]
    omega

/-- C10: none of the authored definitions or loops of the notebook
contains a try/except handler or an explicit raise, at any nesting
depth. -/
theorem no_try_except_no_raise :
    hasTryOrRaise start_timer_src = false ∧
    hasTryOrRaise end_timer_and_print_src = false ∧
    hasTryOrRaise simpleNet_init_src = false ∧
    hasTryOrRaise simpleNet_forward_src = false ∧
    hasTryOrRaise baseline_loop_src = false ∧
    hasTryOrRaise ampO1_loop_src = false ∧
    hasTryOrRaise ampO2_loop_src = false ∧
    hasTryOrRaise gradAccum_loop_src = false := by
  decide
